import Mathlib

/- Verification of the instrumentation-api data-access and handler layers.
   The Go code is shallowly embedded: identifiers (uuid.UUID) become Nat,
   time.Time becomes Int, float64 measurement values become Rat, database
   tables become Lean lists, and each SQL statement becomes the corresponding
   list transformation.  Fallible operations return Except String. -/

namespace InstrumentationApi

/-- Whitespace test used when scanning for the leading JSON token. -/
def isJSONSpace (c : Char) : Bool :=
  c == ' ' || c == '\t' || c == '\n' || c == '\r'

/-- Modelled from the spec: the JSONType helper (its Go source is not under
    src/, only its callers are) inspects the first significant structural
    character of the payload: an array opener yields "ARRAY", an object
    opener yields "OBJECT", and anything else (empty input, the literal
    null, a malformed leading token) yields the empty tag. -/
def JSONType (b : List Char) : String :=
  match (b.dropWhile isJSONSpace).head? with
  | some c => if c = '[' then "ARRAY" else if c = '{' then "OBJECT" else ""
  | none => ""

/-- Shallow embedding of the UnmarshalJSON methods on the collection types
    (TimeseriesMeasurementCollectionCollection, InstrumentNoteCollection,
    InstrumentGroupCollection, ProjectCollection): dispatch on JSONType,
    decode an array into the item list, wrap a single decoded object into a
    one-element list, and default to the empty list with no error.  The
    encoding/json entity decoders are parameters, since the Go standard
    library is not repository code. -/
def unmarshalCollection {E : Type} (decOne : List Char → Except String E)
    (decMany : List Char → Except String (List E)) (b : List Char) :
    Except String (List E) :=
  if JSONType b = "ARRAY" then decMany b
  else if JSONType b = "OBJECT" then
    match decOne b with
    | Except.error e => Except.error e
    | Except.ok x => Except.ok [x]
  else Except.ok []

/-- C3: a payload that is a single valid entity object decodes to exactly
    the one-element sequence holding that object, and a payload that is an
    array of N valid entities decodes to those N entities in input order. -/
theorem unmarshalCollection_object_and_array {E : Type}
    (decOne : List Char → Except String E)
    (decMany : List Char → Except String (List E)) (b : List Char) :
    (∀ x, JSONType b = "OBJECT" → decOne b = Except.ok x →
      unmarshalCollection decOne decMany b = Except.ok [x]) ∧
    (∀ xs, JSONType b = "ARRAY" → decMany b = Except.ok xs →
      unmarshalCollection decOne decMany b = Except.ok xs) := by
  constructor
  · intro x hT hD
    simp [unmarshalCollection, hT, hD]
  · intro xs hT hD
    simp [unmarshalCollection, hT, hD]

/-- Concrete instance of the C3 theorem: the one-character object payload
    decodes to the single decoded entity. -/
theorem unmarshalCollection_object_and_array_witness :
    JSONType ['{'] = "OBJECT" ∧
    unmarshalCollection (fun _ => Except.ok 7)
      (fun _ => Except.ok ([] : List Nat)) ['{'] = Except.ok [7] :=
  ⟨by decide,
   (unmarshalCollection_object_and_array (fun _ => Except.ok 7)
     (fun _ => Except.ok ([] : List Nat)) ['{']).1 7 (by decide) rfl⟩

/-- C4: an input with no leading significant character (empty payload) or
    whose leading character opens neither an array nor an object (the
    literal null, a malformed leading token) decodes to zero items with no
    error, and a decode error arises only when the leading structure is
    recognized as an array or an object and the corresponding entity decode
    fails. -/
theorem unmarshalCollection_default_and_error {E : Type}
    (decOne : List Char → Except String E)
    (decMany : List Char → Except String (List E)) (b : List Char) :
    (((b.dropWhile isJSONSpace).head? = none ∨
      (∀ c, (b.dropWhile isJSONSpace).head? = some c → c ≠ '[' ∧ c ≠ '{')) →
      unmarshalCollection decOne decMany b = Except.ok []) ∧
    (∀ e, unmarshalCollection decOne decMany b = Except.error e →
      (JSONType b = "ARRAY" ∧ decMany b = Except.error e) ∨
      (JSONType b = "OBJECT" ∧ decOne b = Except.error e)) := by
  constructor
  · intro h
    have hT : JSONType b = "" := by
      unfold JSONType
      cases hh : (b.dropWhile isJSONSpace).head? with
      | none => rfl
      | some c =>
        rcases h with h | h
        · rw [hh] at h
          cases h
        · obtain ⟨h1, h2⟩ := h c hh
          simp [h1, h2]
    simp [unmarshalCollection, hT]
  · intro e he
    by_cases hA : JSONType b = "ARRAY"
    · left
      refine ⟨hA, ?_⟩
      simpa [unmarshalCollection, hA] using he
    · by_cases hO : JSONType b = "OBJECT"
      · right
        refine ⟨hO, ?_⟩
        simp only [unmarshalCollection, hA, if_false, hO, if_true,
          if_neg hA, if_pos hO] at he
        cases hD : decOne b with
        | error e2 =>
          rw [hD] at he
          cases he
          rfl
        | ok x =>
          rw [hD] at he
          cases he
      · simp [unmarshalCollection, hA, hO] at he

/-- Concrete instance of the C4 theorem: the empty payload and the literal
    null both decode to zero items with no error. -/
theorem unmarshalCollection_default_and_error_witness :
    unmarshalCollection (fun _ => Except.ok 7)
      (fun _ => Except.ok ([] : List Nat)) [] = Except.ok [] ∧
    unmarshalCollection (fun _ => Except.ok 7)
      (fun _ => Except.ok ([] : List Nat)) ['n', 'u', 'l', 'l'] =
      Except.ok [] :=
  ⟨(unmarshalCollection_default_and_error (fun _ => Except.ok 7)
      (fun _ => Except.ok ([] : List Nat)) []).1 (Or.inl (by decide)),
   (unmarshalCollection_default_and_error (fun _ => Except.ok 7)
      (fun _ => Except.ok ([] : List Nat)) ['n', 'u', 'l', 'l']).1
     (Or.inr (by decide))⟩

/-- One (time, value) point of a timeseries (timeseries.Measurement). -/
structure Measurement where
  time : Int
  value : Rat
  deriving DecidableEq

/-- A timeseries identifier together with its ordered points
    (timeseries.MeasurementCollection). -/
structure MeasurementCollection where
  timeseriesID : Nat
  items : List Measurement
  deriving DecidableEq

/-- One row of the timeseries_measurement table, keyed by
    (timeseries_id, time) through the timeseries_unique_time constraint. -/
structure MeasurementRow where
  timeseriesID : Nat
  time : Int
  value : Rat
  deriving DecidableEq

/-- Key test for the uniqueness constraint on (timeseries_id, time). -/
def rowMatchesKey (tsid : Nat) (t : Int) (r : MeasurementRow) : Bool :=
  r.timeseriesID == tsid && r.time == t

/-- Rows of the table holding the given key. -/
def rowsForKey (rows : List MeasurementRow) (tsid : Nat) (t : Int) :
    List MeasurementRow :=
  rows.filter (rowMatchesKey tsid t)

/-- Embedding of one execution of the prepared statement INSERT INTO
    timeseries_measurement ... ON CONFLICT ON CONSTRAINT
    timeseries_unique_time DO UPDATE SET value = EXCLUDED.value. -/
def upsertMeasurement (rows : List MeasurementRow) (tsid : Nat) (t : Int)
    (v : Rat) : List MeasurementRow :=
  if rows.any (rowMatchesKey tsid t) then
    rows.map (fun r =>
      if rowMatchesKey tsid t r then { r with value := v } else r)
  else rows ++ [⟨tsid, t, v⟩]

/-- Error message standing for a failed statement execution. -/
def execFailedMsg : String := "pq: exec failed"

/-- Inner loop of CreateOrUpdateTimeseriesMeasurements over the points of a
    single collection; the oracle stands for stmt.Exec failures. -/
def writeItems (fails : Nat → Int → Rat → Bool) (tsid : Nat) :
    List MeasurementRow → List Measurement →
    Except String (List MeasurementRow)
  | rows, [] => Except.ok rows
  | rows, m :: ms =>
    if fails tsid m.time m.value then Except.error execFailedMsg
    else writeItems fails tsid (upsertMeasurement rows tsid m.time m.value) ms

/-- Outer loop of CreateOrUpdateTimeseriesMeasurements over collections. -/
def writeCollections (fails : Nat → Int → Rat → Bool) :
    List MeasurementRow → List MeasurementCollection →
    Except String (List MeasurementRow)
  | rows, [] => Except.ok rows
  | rows, c :: cs =>
    match writeItems fails c.timeseriesID rows c.items with
    | Except.error e => Except.error e
    | Except.ok rows2 => writeCollections fails rows2 cs

/-- Embedding of CreateOrUpdateTimeseriesMeasurements: one transaction, one
    upsert execution per point across all collections.  The first failing
    execution rolls the transaction back, leaving the persisted table
    unchanged and returning the error; otherwise the transaction commits
    and the input collections are echoed back unchanged. -/
def createOrUpdateTimeseriesMeasurements (fails : Nat → Int → Rat → Bool)
    (table : List MeasurementRow) (mc : List MeasurementCollection) :
    List MeasurementRow × Except String (List MeasurementCollection) :=
  match writeCollections fails table mc with
  | Except.error e => (table, Except.error e)
  | Except.ok table2 => (table2, Except.ok mc)

theorem writeItems_error (fails : Nat → Int → Rat → Bool) (tsid : Nat)
    (items : List Measurement) :
    ∀ rows, (∃ m ∈ items, fails tsid m.time m.value = true) →
    writeItems fails tsid rows items = Except.error execFailedMsg := by
  induction items with
  | nil =>
    intro rows h
    obtain ⟨m, hm, _⟩ := h
    cases hm
  | cons m ms ih =>
    intro rows h
    by_cases hf : fails tsid m.time m.value = true
    · simp [writeItems, hf]
    · obtain ⟨m2, hm2, hfm2⟩ := h
      cases hm2 with
      | head => exact absurd hfm2 hf
      | tail _ hmem =>
        simp only [writeItems, if_neg hf]
        exact ih _ ⟨m2, hmem, hfm2⟩

theorem writeItems_ok (fails : Nat → Int → Rat → Bool) (tsid : Nat)
    (items : List Measurement) :
    ∀ rows, (∀ m ∈ items, fails tsid m.time m.value = false) →
    ∃ rows2, writeItems fails tsid rows items = Except.ok rows2 := by
  induction items with
  | nil =>
    intro rows _
    exact ⟨rows, rfl⟩
  | cons m ms ih =>
    intro rows h
    have hf : fails tsid m.time m.value = false := h m (List.mem_cons_self m ms)
    simp only [writeItems, hf, if_neg Bool.false_ne_true]
    exact ih _ (fun m2 hm2 => h m2 (List.mem_cons_of_mem m hm2))

theorem writeCollections_error (fails : Nat → Int → Rat → Bool)
    (cs : List MeasurementCollection) :
    ∀ rows,
    (∃ c ∈ cs, ∃ m ∈ c.items, fails c.timeseriesID m.time m.value = true) →
    writeCollections fails rows cs = Except.error execFailedMsg := by
  induction cs with
  | nil =>
    intro rows h
    obtain ⟨c, hc, _⟩ := h
    cases hc
  | cons c cs ih =>
    intro rows h
    by_cases hc : ∃ m ∈ c.items, fails c.timeseriesID m.time m.value = true
    · have hE := writeItems_error fails c.timeseriesID c.items rows hc
      simp [writeCollections, hE]
    · have hAll : ∀ m ∈ c.items, fails c.timeseriesID m.time m.value = false := by
        intro m hm
        by_contra hne
        exact hc ⟨m, hm, by simpa using hne⟩
      obtain ⟨rows2, hOk⟩ := writeItems_ok fails c.timeseriesID c.items rows hAll
      obtain ⟨c2, hc2, hrest⟩ := h
      cases hc2 with
      | head => exact absurd hrest hc
      | tail _ hmem =>
        simp only [writeCollections, hOk]
        exact ih _ ⟨c2, hmem, hrest⟩

theorem writeCollections_ok (fails : Nat → Int → Rat → Bool)
    (cs : List MeasurementCollection) :
    ∀ rows,
    (∀ c ∈ cs, ∀ m ∈ c.items, fails c.timeseriesID m.time m.value = false) →
    ∃ rows2, writeCollections fails rows cs = Except.ok rows2 := by
  induction cs with
  | nil =>
    intro rows _
    exact ⟨rows, rfl⟩
  | cons c cs ih =>
    intro rows h
    obtain ⟨rows2, hOk⟩ := writeItems_ok fails c.timeseriesID c.items rows
      (fun m hm => h c (List.mem_cons_self c cs) m hm)
    simp only [writeCollections, hOk]
    exact ih _ (fun c2 hc2 m hm => h c2 (List.mem_cons_of_mem c hc2) m hm)

/-- C1: if writing any single point of the batch fails, the whole
    transaction is aborted: the persisted measurement table is unchanged
    (no point of the batch is committed) and the underlying execution error
    is returned to the caller. -/
theorem createOrUpdate_aborts_on_failure (fails : Nat → Int → Rat → Bool)
    (table : List MeasurementRow) (mc : List MeasurementCollection)
    (h : ∃ c ∈ mc, ∃ m ∈ c.items, fails c.timeseriesID m.time m.value = true) :
    (createOrUpdateTimeseriesMeasurements fails table mc).1 = table ∧
    (createOrUpdateTimeseriesMeasurements fails table mc).2 =
      Except.error execFailedMsg := by
  have hE := writeCollections_error fails mc table h
  simp [createOrUpdateTimeseriesMeasurements, hE]

/-- Concrete instance of the C1 theorem: a batch whose single point fails
    leaves the one-row table untouched and surfaces the error. -/
theorem createOrUpdate_aborts_on_failure_witness :
    (createOrUpdateTimeseriesMeasurements (fun _ _ _ => true)
      [⟨1, 0, 5⟩] [⟨2, [⟨0, 1⟩]⟩]).1 = [⟨1, 0, 5⟩] ∧
    (createOrUpdateTimeseriesMeasurements (fun _ _ _ => true)
      [⟨1, 0, 5⟩] [⟨2, [⟨0, 1⟩]⟩]).2 = Except.error execFailedMsg :=
  createOrUpdate_aborts_on_failure (fun _ _ _ => true) [⟨1, 0, 5⟩]
    [⟨2, [⟨0, 1⟩]⟩]
    ⟨⟨2, [⟨0, 1⟩]⟩, List.mem_singleton_self _,
      ⟨0, 1⟩, List.mem_singleton_self _, rfl⟩

/-- C8: when every point write succeeds the function echoes back exactly
    the input collections (it does not re-read persisted state), and the
    empty input sequence is a no-op success returning the empty sequence. -/
theorem createOrUpdate_echoes_input (fails : Nat → Int → Rat → Bool)
    (table : List MeasurementRow) (mc : List MeasurementCollection)
    (h : ∀ c ∈ mc, ∀ m ∈ c.items, fails c.timeseriesID m.time m.value = false) :
    (createOrUpdateTimeseriesMeasurements fails table mc).2 = Except.ok mc ∧
    createOrUpdateTimeseriesMeasurements fails table [] =
      (table, Except.ok []) := by
  obtain ⟨table2, hOk⟩ := writeCollections_ok fails mc table h
  constructor
  · simp [createOrUpdateTimeseriesMeasurements, hOk]
  · rfl

/-- Concrete instance of the C8 theorem: a one-point batch with no failure
    is echoed back verbatim. -/
theorem createOrUpdate_echoes_input_witness :
    (createOrUpdateTimeseriesMeasurements (fun _ _ _ => false)
      [⟨1, 0, 5⟩] [⟨2, [⟨0, 1⟩]⟩]).2 = Except.ok [⟨2, [⟨0, 1⟩]⟩] ∧
    createOrUpdateTimeseriesMeasurements (fun _ _ _ => false)
      [⟨1, 0, 5⟩] [] = ([⟨1, 0, 5⟩], Except.ok []) :=
  createOrUpdate_echoes_input (fun _ _ _ => false) [⟨1, 0, 5⟩]
    [⟨2, [⟨0, 1⟩]⟩] (fun _ _ _ _ => rfl)

theorem filter_map_comm {α : Type} (p : α → Bool) (f : α → α)
    (hp : ∀ a, p (f a) = p a) (l : List α) :
    (l.map f).filter p = (l.filter p).map f := by
  induction l with
  | nil => rfl
  | cons a l ih =>
    simp only [List.map_cons, List.filter_cons, hp a]
    by_cases ha : p a = true
    · simp [ha, ih]
    · simp [ha, ih]

theorem rowMatchesKey_iff (tsid : Nat) (t : Int) (r : MeasurementRow) :
    rowMatchesKey tsid t r = true ↔ r.timeseriesID = tsid ∧ r.time = t := by
  simp [rowMatchesKey]

theorem rowsForKey_upsert (rows : List MeasurementRow) (S : Nat) (T : Int)
    (v : Rat) (h : (rowsForKey rows S T).length ≤ 1) :
    rowsForKey (upsertMeasurement rows S T v) S T = [⟨S, T, v⟩] := by
  unfold upsertMeasurement
  by_cases hAny : rows.any (rowMatchesKey S T) = true
  · rw [if_pos hAny]
    have hp : ∀ r, rowMatchesKey S T
        (if rowMatchesKey S T r then { r with value := v } else r) =
        rowMatchesKey S T r := by
      intro r
      by_cases hr : rowMatchesKey S T r = true
      · simp only [hr, if_true]
        obtain ⟨h1, h2⟩ := (rowMatchesKey_iff S T r).mp hr
        simp [rowMatchesKey, h1, h2]
      · simp [hr]
    have hcomm := filter_map_comm (rowMatchesKey S T)
      (fun r => if rowMatchesKey S T r then { r with value := v } else r)
      hp rows
    have hone : ∃ r0, rowsForKey rows S T = [r0] := by
      rw [← List.length_eq_one]
      have hne : rowsForKey rows S T ≠ [] := by
        obtain ⟨r, hr, hpr⟩ := List.any_eq_true.mp hAny
        intro hnil
        have : r ∈ rowsForKey rows S T := List.mem_filter.mpr ⟨hr, hpr⟩
        rw [hnil] at this
        cases this
      have : 1 ≤ (rowsForKey rows S T).length :=
        Nat.one_le_iff_ne_zero.mpr (fun hz =>
          hne (List.eq_nil_of_length_eq_zero hz))
      omega
    obtain ⟨r0, hr0⟩ := hone
    have hr0mem : r0 ∈ rowsForKey rows S T := by
      rw [hr0]
      exact List.mem_singleton_self r0
    have hr0match : rowMatchesKey S T r0 = true :=
      (List.mem_filter.mp hr0mem).2
    obtain ⟨hid, htime⟩ := (rowMatchesKey_iff S T r0).mp hr0match
    show List.filter (rowMatchesKey S T) (rows.map _) = _
    rw [hcomm]
    show (rowsForKey rows S T).map _ = _
    rw [hr0]
    simp only [List.map_cons, List.map_nil, hr0match, if_true]
    congr 1
    cases r0
    simp_all
  · rw [if_neg hAny]
    have hnil : rowsForKey rows S T = [] := by
      unfold rowsForKey
      rw [List.filter_eq_nil_iff]
      intro r hr
      intro hpr
      exact hAny (List.any_eq_true.mpr ⟨r, hr, hpr⟩)
    show List.filter (rowMatchesKey S T) (rows ++ [⟨S, T, v⟩]) = _
    rw [List.filter_append]
    have : List.filter (rowMatchesKey S T) rows = [] := hnil
    rw [this]
    simp [rowMatchesKey]

theorem rowsForKey_upsert_twice (rows : List MeasurementRow) (S : Nat)
    (T : Int) (v1 v2 : Rat) (h : (rowsForKey rows S T).length ≤ 1) :
    rowsForKey (upsertMeasurement (upsertMeasurement rows S T v1) S T v2)
      S T = [⟨S, T, v2⟩] := by
  have h1 := rowsForKey_upsert rows S T v1 h
  have h2 : (rowsForKey (upsertMeasurement rows S T v1) S T).length ≤ 1 := by
    rw [h1]
    simp
  exact rowsForKey_upsert (upsertMeasurement rows S T v1) S T v2 h2

/-- C2: provided the table respects the uniqueness constraint on the key,
    upserting a point for the same series and time twice with different
    values through CreateOrUpdateTimeseriesMeasurements leaves exactly one
    row for that key, holding the second value; and the concrete batch of
    the spec example (existing 600 to 1 and 660 to 2, upserting 660 to 3 and
    720 to 4 on series 5) yields exactly the expected three-row table. -/
theorem createOrUpdate_upsert_twice (table : List MeasurementRow) (S : Nat)
    (T : Int) (v1 v2 : Rat) (huniq : (rowsForKey table S T).length ≤ 1)
    (hne : v1 ≠ v2) :
    rowsForKey (createOrUpdateTimeseriesMeasurements (fun _ _ _ => false)
      table [⟨S, [⟨T, v1⟩, ⟨T, v2⟩]⟩]).1 S T = [⟨S, T, v2⟩] ∧
    (createOrUpdateTimeseriesMeasurements (fun _ _ _ => false)
      [⟨5, 600, 1⟩, ⟨5, 660, 2⟩] [⟨5, [⟨660, 3⟩, ⟨720, 4⟩]⟩]).1 =
      [⟨5, 600, 1⟩, ⟨5, 660, 3⟩, ⟨5, 720, 4⟩] := by
  have hne2 := hne
  clear hne2
  constructor
  · have hr : (createOrUpdateTimeseriesMeasurements (fun _ _ _ => false)
        table [⟨S, [⟨T, v1⟩, ⟨T, v2⟩]⟩]).1 =
        upsertMeasurement (upsertMeasurement table S T v1) S T v2 := by
      simp [createOrUpdateTimeseriesMeasurements, writeCollections,
        writeItems]
    rw [hr]
    exact rowsForKey_upsert_twice table S T v1 v2 huniq
  · decide

/-- Concrete instance of the C2 theorem: the spec example table with a
    double upsert of key (5, 660) ends with the single row holding the
    second value. -/
theorem createOrUpdate_upsert_twice_witness :
    (rowsForKey [⟨5, 600, 1⟩, ⟨5, 660, 2⟩] 5 660).length ≤ 1 ∧
    ((7 : Rat) ≠ (9 : Rat)) ∧
    rowsForKey (createOrUpdateTimeseriesMeasurements (fun _ _ _ => false)
      [⟨5, 600, 1⟩, ⟨5, 660, 2⟩] [⟨5, [⟨660, 7⟩, ⟨660, 9⟩]⟩]).1 5 660 =
      [⟨5, 660, 9⟩] :=
  ⟨by decide, by decide,
   (createOrUpdate_upsert_twice [⟨5, 600, 1⟩, ⟨5, 660, 2⟩] 5 660 7 9
     (by decide) (by decide)).1⟩

/-- The open time window used by the reader (timeseries.TimeWindow). -/
structure TimeWindow where
  after : Int
  before : Int
  deriving DecidableEq

/-- Database state seen by the measurement reader: the timeseries table
    (ids only, joined by the reader) and the timeseries_measurement table. -/
structure MeasurementDB where
  timeseries : List Nat
  measurements : List MeasurementRow
  deriving DecidableEq

/-- Row predicate of the reader: the inner join with the timeseries table
    plus the WHERE clause T.id = $1 AND M.time > $2 AND M.time < $3. -/
def measurementMatches (db : MeasurementDB) (tsid : Nat) (tw : TimeWindow)
    (r : MeasurementRow) : Bool :=
  r.timeseriesID == tsid && db.timeseries.contains r.timeseriesID &&
    decide (tw.after < r.time) && decide (r.time < tw.before)

/-- Descending time order used by ORDER BY M.time DESC. -/
def timeDesc (a b : Measurement) : Prop := b.time ≤ a.time

instance : DecidableRel timeDesc := fun a b => Int.decLe b.time a.time

instance : IsTotal Measurement timeDesc :=
  ⟨fun a b => Int.le_total b.time a.time⟩

instance : IsTrans Measurement timeDesc :=
  ⟨fun _ _ _ h1 h2 => le_trans h2 h1⟩

/-- Embedding of ListTimeseriesMeasurements: select the joined rows in the
    open window and return them time-descending inside one collection; an
    empty result set is returned as a collection, not as an error. -/
def listTimeseriesMeasurements (db : MeasurementDB) (tsid : Nat)
    (tw : TimeWindow) : Except String MeasurementCollection :=
  Except.ok ⟨tsid,
    List.insertionSort timeDesc
      ((db.measurements.filter (measurementMatches db tsid tw)).map
        (fun r => ⟨r.time, r.value⟩))⟩

/-- C5: the reader never returns a point with time at or below the lower
    bound or at or above the upper bound (both bounds strictly exclusive),
    returns the matching points in descending time order, and when no
    stored row matches it returns a collection with an empty point
    sequence rather than an error. -/
theorem listTimeseriesMeasurements_window (db : MeasurementDB) (tsid : Nat)
    (tw : TimeWindow) :
    ∃ c, listTimeseriesMeasurements db tsid tw = Except.ok c ∧
      c.timeseriesID = tsid ∧
      (∀ m ∈ c.items, tw.after < m.time ∧ m.time < tw.before) ∧
      List.Sorted timeDesc c.items ∧
      ((∀ r ∈ db.measurements, measurementMatches db tsid tw r = false) →
        c.items = []) := by
  refine ⟨_, rfl, rfl, ?_, List.sorted_insertionSort timeDesc _, ?_⟩
  · intro m hm
    have hm2 : m ∈ (db.measurements.filter
        (measurementMatches db tsid tw)).map
        (fun r => (⟨r.time, r.value⟩ : Measurement)) :=
      (List.perm_insertionSort timeDesc _).mem_iff.mp hm
    obtain ⟨r, hrf, hrm⟩ := List.mem_map.mp hm2
    have hmatch := (List.mem_filter.mp hrf).2
    unfold measurementMatches at hmatch
    simp only [Bool.and_eq_true, decide_eq_true_eq] at hmatch
    obtain ⟨⟨⟨_, _⟩, hlo⟩, hhi⟩ := hmatch
    subst hrm
    exact ⟨hlo, hhi⟩
  · intro hno
    have hnil : db.measurements.filter (measurementMatches db tsid tw) = [] := by
      rw [List.filter_eq_nil_iff]
      intro r hr
      simp [hno r hr]
    simp [hnil]

/-- Concrete instance of the C5 theorem at a one-row database. -/
theorem listTimeseriesMeasurements_window_witness :
    ∃ c, listTimeseriesMeasurements ⟨[1], [⟨1, 5, 2⟩]⟩ 1 ⟨0, 10⟩ =
        Except.ok c ∧
      c.timeseriesID = 1 ∧
      (∀ m ∈ c.items, (0 : Int) < m.time ∧ m.time < 10) ∧
      List.Sorted timeDesc c.items ∧
      ((∀ r ∈ [(⟨1, 5, 2⟩ : MeasurementRow)],
        measurementMatches ⟨[1], [⟨1, 5, 2⟩]⟩ 1 ⟨0, 10⟩ r = false) →
        c.items = []) :=
  listTimeseriesMeasurements_window ⟨[1], [⟨1, 5, 2⟩]⟩ 1 ⟨0, 10⟩

/-- One row of the plot_configuration table (the columns the update
    statement touches). -/
structure PlotConfigRow where
  id : Nat
  projectID : Nat
  name : String
  updater : Nat
  updateDate : Int
  deriving DecidableEq

/-- The desired plot configuration handed to UpdatePlotConfiguration. -/
structure PlotConfiguration where
  id : Nat
  projectID : Nat
  name : String
  timeseriesID : List Nat
  updater : Nat
  updateDate : Int
  deriving DecidableEq

/-- Database state touched by the reconciler: the plot_configuration table
    and the plot_configuration_timeseries association table, the latter
    keyed by the pair through plot_configuration_unique_timeseries. -/
structure PlotConfigDB where
  configs : List PlotConfigRow
  assocs : List (Nat × Nat)
  deriving DecidableEq

/-- Error produced by sqlx.In when a slice bound to an IN clause is empty
    (library semantics of the sqlx package, not repository code). -/
def sqlxInEmptyMsg : String := "empty slice passed to IN query"

/-- Embedding of DELETE FROM plot_configuration_timeseries WHERE
    plot_configuration_id = ? AND timeseries_id NOT IN (?). -/
def deleteAssocsNotIn (assocs : List (Nat × Nat)) (pcID : Nat)
    (keep : List Nat) : List (Nat × Nat) :=
  assocs.filter (fun a => !(a.1 == pcID && !keep.contains a.2))

/-- Embedding of one INSERT INTO plot_configuration_timeseries ... ON
    CONFLICT ON CONSTRAINT plot_configuration_unique_timeseries DO NOTHING
    execution. -/
def insertAssocDoNothing (assocs : List (Nat × Nat)) (pcID tsID : Nat) :
    List (Nat × Nat) :=
  if (pcID, tsID) ∈ assocs then assocs else assocs ++ [(pcID, tsID)]

/-- The insert loop of UpdatePlotConfiguration over the desired ids. -/
def insertAssocs (assocs : List (Nat × Nat)) (pcID : Nat)
    (keep : List Nat) : List (Nat × Nat) :=
  keep.foldl (fun acc t => insertAssocDoNothing acc pcID t) assocs

/-- Embedding of UpdatePlotConfiguration: inside one transaction, update
    the plot_configuration row, delete every association absent from the
    desired list, and insert every desired association with conflicts
    ignored.  The delete statement is built through sqlx.In, which rejects
    an empty desired list; that error rolls the transaction back before any
    statement executes, leaving the database unchanged. -/
def updatePlotConfiguration (db : PlotConfigDB) (pc : PlotConfiguration) :
    PlotConfigDB × Except String Unit :=
  if pc.timeseriesID.isEmpty then (db, Except.error sqlxInEmptyMsg)
  else
    let configs2 := db.configs.map (fun r =>
      if r.projectID == pc.projectID && r.id == pc.id then
        { r with name := pc.name, updater := pc.updater,
                 updateDate := pc.updateDate }
      else r)
    let assocs2 := deleteAssocsNotIn db.assocs pc.id pc.timeseriesID
    let assocs3 := insertAssocs assocs2 pc.id pc.timeseriesID
    (⟨configs2, assocs3⟩, Except.ok ())

/-- C6 counterexample: reconciling the association set to the empty
    sequence through UpdatePlotConfiguration does not succeed and does not
    leave zero association rows: sqlx.In rejects the empty list and the
    prior association survives the rolled-back transaction. -/
theorem updatePlotConfiguration_empty_counterexample :
    ¬ ((updatePlotConfiguration ⟨[⟨1, 2, "p", 0, 0⟩], [(1, 9)]⟩
        ⟨1, 2, "p", [], 0, 0⟩).2 = Except.ok () ∧
       (updatePlotConfiguration ⟨[⟨1, 2, "p", 0, 0⟩], [(1, 9)]⟩
        ⟨1, 2, "p", [], 0, 0⟩).1.assocs = []) := by
  intro h
  obtain ⟨h1, _⟩ := h
  simp [updatePlotConfiguration] at h1

/-- C6 amended: reconciling the association set to the empty sequence
    fails rather than succeeding: sqlx.In rejects the empty desired list,
    the transaction is rolled back with an error returned, and every prior
    association row (for the owner and for everyone else) is left in
    place. -/
theorem updatePlotConfiguration_empty (db : PlotConfigDB)
    (pc : PlotConfiguration) (h : pc.timeseriesID = []) :
    updatePlotConfiguration db pc = (db, Except.error sqlxInEmptyMsg) := by
  simp [updatePlotConfiguration, h]

/-- Concrete instance of the amended C6 theorem. -/
theorem updatePlotConfiguration_empty_witness :
    updatePlotConfiguration ⟨[⟨1, 2, "p", 0, 0⟩], [(1, 9)]⟩
      ⟨1, 2, "p", [], 0, 0⟩ =
      (⟨[⟨1, 2, "p", 0, 0⟩], [(1, 9)]⟩, Except.error sqlxInEmptyMsg) :=
  updatePlotConfiguration_empty ⟨[⟨1, 2, "p", 0, 0⟩], [(1, 9)]⟩
    ⟨1, 2, "p", [], 0, 0⟩ rfl

theorem mem_insertAssocDoNothing (assocs : List (Nat × Nat))
    (pcID t : Nat) (a : Nat × Nat) (h : a ∈ assocs) :
    a ∈ insertAssocDoNothing assocs pcID t := by
  unfold insertAssocDoNothing
  by_cases hmem : (pcID, t) ∈ assocs
  · rwa [if_pos hmem]
  · rw [if_neg hmem]
    exact List.mem_append_left _ h

theorem mem_insertAssocs_of_mem (keep : List Nat) :
    ∀ assocs (pcID : Nat) (a : Nat × Nat), a ∈ assocs →
    a ∈ insertAssocs assocs pcID keep := by
  induction keep with
  | nil => intro assocs pcID a h; exact h
  | cons t ts ih =>
    intro assocs pcID a h
    exact ih _ pcID a (mem_insertAssocDoNothing assocs pcID t a h)

theorem insertAssocs_cons (assocs : List (Nat × Nat)) (pcID x : Nat)
    (xs : List Nat) :
    insertAssocs assocs pcID (x :: xs) =
    insertAssocs (insertAssocDoNothing assocs pcID x) pcID xs := rfl

theorem self_mem_insertAssocDoNothing (assocs : List (Nat × Nat))
    (pcID t : Nat) : (pcID, t) ∈ insertAssocDoNothing assocs pcID t := by
  unfold insertAssocDoNothing
  by_cases hmem : (pcID, t) ∈ assocs
  · rwa [if_pos hmem]
  · rw [if_neg hmem]
    exact List.mem_append_right _ (List.mem_singleton_self _)

theorem self_mem_insertAssocs (keep : List Nat) :
    ∀ assocs (pcID : Nat) (t : Nat), t ∈ keep →
    (pcID, t) ∈ insertAssocs assocs pcID keep := by
  induction keep with
  | nil => intro _ _ _ h; cases h
  | cons x xs ih =>
    intro assocs pcID t h
    rw [insertAssocs_cons]
    rcases List.mem_cons.mp h with heq | hmem
    · subst heq
      exact mem_insertAssocs_of_mem xs _ pcID _
        (self_mem_insertAssocDoNothing assocs pcID t)
    · exact ih _ pcID t hmem

theorem mem_insertAssocs (keep : List Nat) :
    ∀ assocs (pcID : Nat) (a : Nat × Nat),
    a ∈ insertAssocs assocs pcID keep →
    a ∈ assocs ∨ (a.1 = pcID ∧ a.2 ∈ keep) := by
  induction keep with
  | nil => intro _ _ a h; exact Or.inl h
  | cons x xs ih =>
    intro assocs pcID a h
    rw [insertAssocs_cons] at h
    rcases ih _ pcID a h with h2 | h2
    · unfold insertAssocDoNothing at h2
      by_cases hmem : (pcID, x) ∈ assocs
      · rw [if_pos hmem] at h2
        exact Or.inl h2
      · rw [if_neg hmem] at h2
        rcases List.mem_append.mp h2 with h3 | h3
        · exact Or.inl h3
        · have := List.mem_singleton.mp h3
          subst this
          exact Or.inr ⟨rfl, List.mem_cons_self x xs⟩
    · exact Or.inr ⟨h2.1, List.mem_cons_of_mem x h2.2⟩

theorem insertAssocs_no_op (keep : List Nat) :
    ∀ assocs (pcID : Nat), (∀ t ∈ keep, (pcID, t) ∈ assocs) →
    insertAssocs assocs pcID keep = assocs := by
  induction keep with
  | nil => intro _ _ _; rfl
  | cons x xs ih =>
    intro assocs pcID h
    have hx : insertAssocDoNothing assocs pcID x = assocs :=
      if_pos (h x (List.mem_cons_self x xs))
    show insertAssocs (insertAssocDoNothing assocs pcID x) pcID xs = assocs
    rw [hx]
    exact ih assocs pcID (fun t ht => h t (List.mem_cons_of_mem x ht))

theorem deleteAssocsNotIn_eq_self (assocs : List (Nat × Nat)) (pcID : Nat)
    (keep : List Nat) (h : ∀ a ∈ assocs, a.1 = pcID → a.2 ∈ keep) :
    deleteAssocsNotIn assocs pcID keep = assocs := by
  unfold deleteAssocsNotIn
  rw [List.filter_eq_self]
  intro a ha
  by_cases hid : a.1 = pcID
  · have := h a ha hid
    simp [hid, this]
  · simp [hid]

theorem updatePC_assocs_subset (db : PlotConfigDB) (pc : PlotConfiguration)
    (hne : ¬pc.timeseriesID.isEmpty = true) :
    ∀ a ∈ (updatePlotConfiguration db pc).1.assocs,
    a.1 = pc.id → a.2 ∈ pc.timeseriesID := by
  intro a ha hid
  simp only [updatePlotConfiguration, if_neg hne] at ha
  rcases mem_insertAssocs pc.timeseriesID _ pc.id a ha with h2 | h2
  · have hp := (List.mem_filter.mp h2).2
    simp at hp
    rcases hp with hp | hp
    · exact absurd hid hp
    · exact hp
  · exact h2.2

/-- C7: reconciling to the same non-empty desired set twice is idempotent:
    on the second call the delete statement removes no association row,
    every insert hits the conflict-do-nothing path, and the persisted
    association table is exactly the one the first call left. -/
theorem updatePlotConfiguration_idempotent (db : PlotConfigDB)
    (pc : PlotConfiguration) (h : pc.timeseriesID ≠ []) :
    deleteAssocsNotIn (updatePlotConfiguration db pc).1.assocs pc.id
      pc.timeseriesID = (updatePlotConfiguration db pc).1.assocs ∧
    insertAssocs (updatePlotConfiguration db pc).1.assocs pc.id
      pc.timeseriesID = (updatePlotConfiguration db pc).1.assocs ∧
    (updatePlotConfiguration (updatePlotConfiguration db pc).1 pc).1.assocs =
      (updatePlotConfiguration db pc).1.assocs := by
  have hne : ¬pc.timeseriesID.isEmpty = true := by
    simpa [List.isEmpty_iff] using h
  have hdel : deleteAssocsNotIn (updatePlotConfiguration db pc).1.assocs
      pc.id pc.timeseriesID = (updatePlotConfiguration db pc).1.assocs :=
    deleteAssocsNotIn_eq_self _ pc.id pc.timeseriesID
      (updatePC_assocs_subset db pc hne)
  have hself : ∀ t ∈ pc.timeseriesID,
      (pc.id, t) ∈ (updatePlotConfiguration db pc).1.assocs := by
    intro t ht
    simp only [updatePlotConfiguration, if_neg hne]
    exact self_mem_insertAssocs pc.timeseriesID _ pc.id t ht
  have hins : insertAssocs (updatePlotConfiguration db pc).1.assocs pc.id
      pc.timeseriesID = (updatePlotConfiguration db pc).1.assocs :=
    insertAssocs_no_op pc.timeseriesID _ pc.id hself
  refine ⟨hdel, hins, ?_⟩
  conv =>
    lhs
    rw [updatePlotConfiguration, if_neg hne]
  simp only []
  rw [hdel, hins]

/-- Concrete instance of the C7 theorem at a two-row association table. -/
theorem updatePlotConfiguration_idempotent_witness :
    deleteAssocsNotIn (updatePlotConfiguration
      ⟨[⟨1, 2, "p", 0, 0⟩], [(1, 9), (3, 4)]⟩
      ⟨1, 2, "q", [7, 9], 5, 6⟩).1.assocs 1 [7, 9] =
      (updatePlotConfiguration ⟨[⟨1, 2, "p", 0, 0⟩], [(1, 9), (3, 4)]⟩
        ⟨1, 2, "q", [7, 9], 5, 6⟩).1.assocs ∧
    insertAssocs (updatePlotConfiguration
      ⟨[⟨1, 2, "p", 0, 0⟩], [(1, 9), (3, 4)]⟩
      ⟨1, 2, "q", [7, 9], 5, 6⟩).1.assocs 1 [7, 9] =
      (updatePlotConfiguration ⟨[⟨1, 2, "p", 0, 0⟩], [(1, 9), (3, 4)]⟩
        ⟨1, 2, "q", [7, 9], 5, 6⟩).1.assocs ∧
    (updatePlotConfiguration (updatePlotConfiguration
      ⟨[⟨1, 2, "p", 0, 0⟩], [(1, 9), (3, 4)]⟩
      ⟨1, 2, "q", [7, 9], 5, 6⟩).1 ⟨1, 2, "q", [7, 9], 5, 6⟩).1.assocs =
      (updatePlotConfiguration ⟨[⟨1, 2, "p", 0, 0⟩], [(1, 9), (3, 4)]⟩
        ⟨1, 2, "q", [7, 9], 5, 6⟩).1.assocs :=
  updatePlotConfiguration_idempotent
    ⟨[⟨1, 2, "p", 0, 0⟩], [(1, 9), (3, 4)]⟩
    ⟨1, 2, "q", [7, 9], 5, 6⟩ (by decide)

/-- Outcome observed from a handler: the HTTP status code written and
    whether the handler reached the data-access layer. -/
structure HandlerOut where
  status : Nat
  dbAccessed : Bool
  deriving DecidableEq

/-- Status codes the spec allows a handler to write. -/
def allowedStatus (s : Nat) : Prop := s = 200 ∨ s = 201 ∨ s = 400 ∨ s = 500

/-- Embedding of handlers.ListInstrumentStatus: a malformed instrument id
    yields 400 with no storage access; a storage error is written with
    http.StatusBadRequest (400) in the source; success is 200. -/
def listInstrumentStatusHandler (idParam : Option Nat)
    (dbResult : Except String Unit) : HandlerOut :=
  match idParam with
  | none => ⟨400, false⟩
  | some _ =>
    match dbResult with
    | Except.error _ => ⟨400, true⟩
    | Except.ok _ => ⟨200, true⟩

/-- Embedding of handlers.GetInstrumentStatus (storage errors become 400). -/
def getInstrumentStatusHandler (idParam : Option Nat)
    (dbResult : Except String Unit) : HandlerOut :=
  match idParam with
  | none => ⟨400, false⟩
  | some _ =>
    match dbResult with
    | Except.error _ => ⟨400, true⟩
    | Except.ok _ => ⟨200, true⟩

/-- Embedding of handlers.CreateOrUpdateInstrumentStatus: malformed id or
    payload yields 400 before storage; a uuid.NewRandom failure yields 500
    before storage; a storage error yields 500; success is 201. -/
def createOrUpdateInstrumentStatusHandler (idParam : Option Nat)
    (bindResult : Except String Unit) (uuidGen : Except String Unit)
    (dbResult : Except String Unit) : HandlerOut :=
  match idParam with
  | none => ⟨400, false⟩
  | some _ =>
    match bindResult with
    | Except.error _ => ⟨400, false⟩
    | Except.ok _ =>
      match uuidGen with
      | Except.error _ => ⟨500, false⟩
      | Except.ok _ =>
        match dbResult with
        | Except.error _ => ⟨500, true⟩
        | Except.ok _ => ⟨201, true⟩

/-- Embedding of handlers.DeleteInstrumentStatus. -/
def deleteInstrumentStatusHandler (idParam : Option Nat)
    (dbResult : Except String Unit) : HandlerOut :=
  match idParam with
  | none => ⟨400, false⟩
  | some _ =>
    match dbResult with
    | Except.error _ => ⟨500, true⟩
    | Except.ok _ => ⟨200, true⟩

/-- Embedding of handlers.ListAwareParameters. -/
def listAwareParametersHandler (dbResult : Except String Unit) :
    HandlerOut :=
  match dbResult with
  | Except.error _ => ⟨500, true⟩
  | Except.ok _ => ⟨200, true⟩

/-- Embedding of handlers.ListAwarePlatformParameterConfig. -/
def listAwarePlatformParameterConfigHandler
    (dbResult : Except String Unit) : HandlerOut :=
  match dbResult with
  | Except.error _ => ⟨500, true⟩
  | Except.ok _ => ⟨200, true⟩

/-- Embedding of handlers.ListInstrumentNotes. -/
def listInstrumentNotesHandler (dbResult : Except String Unit) :
    HandlerOut :=
  match dbResult with
  | Except.error _ => ⟨500, true⟩
  | Except.ok _ => ⟨200, true⟩

/-- Embedding of handlers.ListInstrumentInstrumentNotes. -/
def listInstrumentInstrumentNotesHandler (idParam : Option Nat)
    (dbResult : Except String Unit) : HandlerOut :=
  match idParam with
  | none => ⟨400, false⟩
  | some _ =>
    match dbResult with
    | Except.error _ => ⟨500, true⟩
    | Except.ok _ => ⟨200, true⟩

/-- Embedding of handlers.GetInstrumentNote. -/
def getInstrumentNoteHandler (idParam : Option Nat)
    (dbResult : Except String Unit) : HandlerOut :=
  match idParam with
  | none => ⟨400, false⟩
  | some _ =>
    match dbResult with
    | Except.error _ => ⟨500, true⟩
    | Except.ok _ => ⟨200, true⟩

/-- Embedding of handlers.CreateInstrumentNote: a payload that fails to
    bind yields 400 with no storage access; success is 201. -/
def createInstrumentNoteHandler (bindResult : Except String Unit)
    (dbResult : Except String Unit) : HandlerOut :=
  match bindResult with
  | Except.error _ => ⟨400, false⟩
  | Except.ok _ =>
    match dbResult with
    | Except.error _ => ⟨500, true⟩
    | Except.ok _ => ⟨201, true⟩

/-- Embedding of handlers.UpdateInstrumentNote: the bound body may carry
    its own id (some), otherwise the note keeps the path id; a mismatch is
    answered 400 before storage; a storage error is written with
    http.StatusBadRequest (400) in the source. -/
def updateInstrumentNoteHandler (idParam : Option Nat)
    (bindResult : Except String (Option Nat))
    (dbResult : Except String Unit) : HandlerOut :=
  match idParam with
  | none => ⟨400, false⟩
  | some noteID =>
    match bindResult with
    | Except.error _ => ⟨400, false⟩
    | Except.ok bodyID =>
      if noteID ≠ bodyID.getD noteID then ⟨400, false⟩
      else
        match dbResult with
        | Except.error _ => ⟨400, true⟩
        | Except.ok _ => ⟨200, true⟩

/-- Embedding of handlers.DeleteInstrumentNote. -/
def deleteInstrumentNoteHandler (idParam : Option Nat)
    (dbResult : Except String Unit) : HandlerOut :=
  match idParam with
  | none => ⟨400, false⟩
  | some _ =>
    match dbResult with
    | Except.error _ => ⟨500, true⟩
    | Except.ok _ => ⟨200, true⟩

/-- Embedding of handlers.ComputedTimeseries: the instrument id is a
    hardcoded valid literal so its parse never fails; a storage error is
    written as 400. -/
def computedTimeseriesHandler (dbResult : Except String Unit) :
    HandlerOut :=
  match dbResult with
  | Except.error _ => ⟨400, true⟩
  | Except.ok _ => ⟨200, true⟩

theorem allowed200 : allowedStatus 200 := Or.inl rfl

theorem allowed201 : allowedStatus 201 := Or.inr (Or.inl rfl)

theorem allowed400 : allowedStatus 400 := Or.inr (Or.inr (Or.inl rfl))

theorem allowed500 : allowedStatus 500 := Or.inr (Or.inr (Or.inr rfl))

/-- C9 counterexample: a storage failure in ListInstrumentStatus (cited by
    the claim) is answered with status 400, not the 500 the claim
    requires. -/
theorem handlers_storage_error_counterexample :
    (listInstrumentStatusHandler (some 1)
      (Except.error "connection refused")).status = 400 ∧
    (listInstrumentStatusHandler (some 1)
      (Except.error "connection refused")).status ≠ 500 := by
  exact ⟨rfl, by decide⟩

/-- C9 amended: every modeled handler writes a status from {200, 201, 400,
    500} and answers malformed client input with 400 before any storage
    access, but a storage failure is answered with 400 rather than 500 by
    ListInstrumentStatus, GetInstrumentStatus, UpdateInstrumentNote and
    ComputedTimeseries, and with 500 by the remaining handlers. -/
theorem handlers_status_taxonomy :
    (∀ ip r, allowedStatus (listInstrumentStatusHandler ip r).status) ∧
    (∀ ip r, allowedStatus (getInstrumentStatusHandler ip r).status) ∧
    (∀ ip b g r, allowedStatus
      (createOrUpdateInstrumentStatusHandler ip b g r).status) ∧
    (∀ ip r, allowedStatus (deleteInstrumentStatusHandler ip r).status) ∧
    (∀ r, allowedStatus (listAwareParametersHandler r).status) ∧
    (∀ r, allowedStatus (listAwarePlatformParameterConfigHandler r).status) ∧
    (∀ r, allowedStatus (listInstrumentNotesHandler r).status) ∧
    (∀ ip r, allowedStatus
      (listInstrumentInstrumentNotesHandler ip r).status) ∧
    (∀ ip r, allowedStatus (getInstrumentNoteHandler ip r).status) ∧
    (∀ b r, allowedStatus (createInstrumentNoteHandler b r).status) ∧
    (∀ ip bo r, allowedStatus (updateInstrumentNoteHandler ip bo r).status) ∧
    (∀ ip r, allowedStatus (deleteInstrumentNoteHandler ip r).status) ∧
    (∀ r, allowedStatus (computedTimeseriesHandler r).status) ∧
    (∀ r, listInstrumentStatusHandler none r = ⟨400, false⟩ ∧
      getInstrumentStatusHandler none r = ⟨400, false⟩ ∧
      deleteInstrumentStatusHandler none r = ⟨400, false⟩ ∧
      listInstrumentInstrumentNotesHandler none r = ⟨400, false⟩ ∧
      getInstrumentNoteHandler none r = ⟨400, false⟩ ∧
      deleteInstrumentNoteHandler none r = ⟨400, false⟩ ∧
      (∀ e b g, createOrUpdateInstrumentStatusHandler none b g r =
          ⟨400, false⟩ ∧
        createOrUpdateInstrumentStatusHandler (some 0) (Except.error e)
          g r = ⟨400, false⟩) ∧
      (∀ e, createInstrumentNoteHandler (Except.error e) r = ⟨400, false⟩) ∧
      (∀ e bo, updateInstrumentNoteHandler none bo r = ⟨400, false⟩ ∧
        updateInstrumentNoteHandler (some 0) (Except.error e) r =
          ⟨400, false⟩ ∧
        updateInstrumentNoteHandler (some 0) (Except.ok (some 1)) r =
          ⟨400, false⟩)) ∧
    (∀ n e,
      (listInstrumentStatusHandler (some n) (Except.error e)).status =
        400 ∧
      (getInstrumentStatusHandler (some n) (Except.error e)).status = 400 ∧
      (updateInstrumentNoteHandler (some n) (Except.ok none)
        (Except.error e)).status = 400 ∧
      (computedTimeseriesHandler (Except.error e)).status = 400 ∧
      (deleteInstrumentStatusHandler (some n) (Except.error e)).status =
        500 ∧
      (listAwareParametersHandler (Except.error e)).status = 500 ∧
      (listAwarePlatformParameterConfigHandler (Except.error e)).status =
        500 ∧
      (listInstrumentNotesHandler (Except.error e)).status = 500 ∧
      (listInstrumentInstrumentNotesHandler (some n)
        (Except.error e)).status = 500 ∧
      (getInstrumentNoteHandler (some n) (Except.error e)).status = 500 ∧
      (createInstrumentNoteHandler (Except.ok ())
        (Except.error e)).status = 500 ∧
      (createOrUpdateInstrumentStatusHandler (some n) (Except.ok ())
        (Except.ok ()) (Except.error e)).status = 500 ∧
      (deleteInstrumentNoteHandler (some n) (Except.error e)).status =
        500) := by
  refine ⟨?_, ?_, ?_, ?_, ?_, ?_, ?_, ?_, ?_, ?_, ?_, ?_, ?_, ?_, ?_⟩
  · intro ip r
    cases ip <;> cases r <;>
      first | exact allowed200 | exact allowed400
  · intro ip r
    cases ip <;> cases r <;>
      first | exact allowed200 | exact allowed400
  · intro ip b g r
    cases ip <;> cases b <;> cases g <;> cases r <;>
      first | exact allowed201 | exact allowed400 | exact allowed500
  · intro ip r
    cases ip <;> cases r <;>
      first | exact allowed200 | exact allowed400 | exact allowed500
  · intro r
    cases r <;> first | exact allowed200 | exact allowed500
  · intro r
    cases r <;> first | exact allowed200 | exact allowed500
  · intro r
    cases r <;> first | exact allowed200 | exact allowed500
  · intro ip r
    cases ip <;> cases r <;>
      first | exact allowed200 | exact allowed400 | exact allowed500
  · intro ip r
    cases ip <;> cases r <;>
      first | exact allowed200 | exact allowed400 | exact allowed500
  · intro b r
    cases b <;> cases r <;>
      first | exact allowed201 | exact allowed400 | exact allowed500
  · intro ip bo r
    cases ip with
    | none => exact allowed400
    | some k =>
      cases bo with
      | error e => exact allowed400
      | ok o =>
        cases o with
        | none =>
          cases r <;> simp [updateInstrumentNoteHandler, allowedStatus]
        | some m =>
          by_cases hkm : k = m
          · subst hkm
            cases r <;> simp [updateInstrumentNoteHandler, allowedStatus]
          · cases r <;>
              simp [updateInstrumentNoteHandler, allowedStatus, hkm]
  · intro ip r
    cases ip <;> cases r <;>
      first | exact allowed200 | exact allowed400 | exact allowed500
  · intro r
    cases r <;> first | exact allowed200 | exact allowed400
  · intro r
    refine ⟨rfl, rfl, rfl, rfl, rfl, rfl, fun e b g => ⟨rfl, rfl⟩,
      fun e => rfl, fun e bo => ⟨rfl, rfl, rfl⟩⟩
  · intro n e
    refine ⟨rfl, rfl, ?_, rfl, rfl, rfl, rfl, rfl, rfl, rfl, rfl, rfl, rfl⟩
    simp [updateInstrumentNoteHandler]

/-- One row of the v_project view (the columns that drive row selection;
    the audit and count columns do not affect which rows match). -/
structure ProjectRow where
  id : Nat
  deleted : Bool
  slug : String
  name : String
  deriving DecidableEq

/-- Embedding of GetProject: the query SELECT ... FROM v_project WHERE
    id = $1, ProjectFactory over the matching rows, then the unchecked
    first-element access pp[0].  The Option result makes the access
    observable: none is the index-out-of-range panic Go raises on an empty
    row slice. -/
def getProject (projects : List ProjectRow) (id : Nat) :
    Option ProjectRow :=
  (projects.filter (fun p => p.id == id))[0]?

/-- Embedding of GetPlotConfiguration: the query with WHERE project_id =
    $1 AND id = $2, PlotConfigFactory (whose error the Go code ignores),
    then the unchecked pp[0]. -/
def getPlotConfiguration (db : PlotConfigDB)
    (projectID plotconfigID : Nat) : Option PlotConfigRow :=
  (db.configs.filter
    (fun r => r.projectID == projectID && r.id == plotconfigID))[0]?

/-- C10: contrary to the claim, a successful query matching zero rows does
    reach the unchecked first-element access: on a database with no row
    for the requested identifier both getters evaluate to the
    out-of-bounds access (Go index-out-of-range panic), and the access is
    in bounds exactly when at least one row matches. -/
theorem getters_first_element_out_of_bounds :
    getProject [⟨1, false, "a", "A"⟩] 2 = none ∧
    getPlotConfiguration ⟨[⟨1, 2, "p", 0, 0⟩], []⟩ 2 9 = none ∧
    (∀ projects (id : Nat), (getProject projects id).isSome = true ↔
      ∃ p ∈ projects, p.id = id) := by
  refine ⟨rfl, rfl, ?_⟩
  intro projects id
  constructor
  · intro h
    cases hf : projects.filter (fun p => p.id == id) with
    | nil =>
      rw [getProject] at h
      rw [hf] at h
      cases h
    | cons p ps =>
      have hp : p ∈ projects.filter (fun p => p.id == id) := by
        rw [hf]
        exact List.mem_cons_self _ _
      have hm := List.mem_filter.mp hp
      exact ⟨p, hm.1, by simpa using hm.2⟩
  · intro h
    obtain ⟨p, hp, hid⟩ := h
    have hm : p ∈ projects.filter (fun p => p.id == id) :=
      List.mem_filter.mpr ⟨hp, by simpa using hid⟩
    rw [getProject]
    cases hf : projects.filter (fun p => p.id == id) with
    | nil =>
      rw [hf] at hm
      cases hm
    | cons q qs => simp

end InstrumentationApi
